import Mathlib

/-!
Shallow embedding of the concurrency core of the gpui-video-player
repository (src/src/video.rs), together with proofs about its buffer,
seek, speed, pause and frame-readiness operations.

Conventions of the embedding:
* Machine floats (f64) are modelled by the inductive type F64 below:
  NaN, signed infinity, or a finite value carried as an exact rational.
  The only float operations the modelled code performs are classification
  (is_nan, is_infinite), comparison, absolute value and one subtraction;
  classification, comparison and absolute value on doubles are exact, and
  the subtraction is exact whenever the real result is representable,
  which holds at every point this development evaluates it.
* Clock times and durations are nanosecond counts (Nat).
* The GStreamer pipeline is external: its responses (query_position,
  query_duration, success or failure of a seek) enter the model as
  explicit parameters, and the commands the code issues to it (seeks,
  state changes) are returned as explicit values so that theorems can
  speak about what was sent to the pipeline.
* Shared-state fields guarded by locks or atomics in the source are
  plain fields of the Internal structure; each modelled operation is a
  function from the pre-state (plus pipeline responses) to the
  post-state (plus issued commands), mirroring the body of the
  corresponding Rust function line by line.
-/

/-- Model of an f64 value: NaN, an infinity (the Bool is the sign,
true = positive), or a finite double carried as its exact rational
value. -/
inductive F64 where
  | nan : F64
  | inf : Bool → F64
  | val : ℚ → F64
deriving DecidableEq

namespace F64

/-- Classification f64::is_nan. -/
def isNan : F64 → Bool
  | nan => true
  | _ => false

/-- Classification f64::is_infinite. -/
def isInfinite : F64 → Bool
  | inf _ => true
  | _ => false

/-- Strict comparison of doubles; any comparison with NaN is false. -/
def lt : F64 → F64 → Bool
  | nan, _ => false
  | _, nan => false
  | inf b, inf c => !b && c
  | inf b, val _ => !b
  | val _, inf c => c
  | val x, val y => decide (x < y)

/-- Absolute value of a double. -/
def abs : F64 → F64
  | nan => nan
  | inf _ => inf true
  | val x => val |x|

/-- Subtraction of doubles, exact on the finite values this development
evaluates it at (see the module header). -/
def sub : F64 → F64 → F64
  | nan, _ => nan
  | _, nan => nan
  | inf b, inf c => if b = c then nan else inf b
  | inf b, val _ => inf b
  | val _, inf c => inf !c
  | val x, val y => val (x - y)

end F64

/-- Value of f64::EPSILON, 2 ^ (-52). -/
def f64Epsilon : F64 := .val (1 / 2 ^ 52)

/-- Modelled from the spec: the crate error enum is declared in the
error module (src/error.rs), which is absent from the provided sources;
only its use sites in src/src/video.rs (Error::Caps, Error::Cast,
Error::Framerate) are visible. Variants follow the taxonomy of spec
section 7: InitializationFailure, CapabilityMissing (Caps),
InvalidFramerate carrying the offending value (Framerate), TypeMismatch
(Cast), and OperationFailure for pipeline-rejected operations. -/
inductive Error where
  | init : Error
  | caps : Error
  | framerate : F64 → Error
  | cast : Error
  | operationFailure : Error
deriving DecidableEq

/-- GStreamer pipeline states used by the modelled code. -/
inductive GstState where
  | null : GstState
  | ready : GstState
  | paused : GstState
  | playing : GstState
deriving DecidableEq

/-- Position in the media (src/src/video.rs lines 14-21): a time in
nanoseconds or an nth-frame index. -/
inductive Position where
  | time : Nat → Position
  | frame : Nat → Position
deriving DecidableEq

/-- GenericFormattedValue as used by the modelled seeks: a clock time or
a default-format (frame) count, either possibly NONE. -/
inductive GenValue where
  | clockTime : Option Nat → GenValue
  | defaultFmt : Option Nat → GenValue
deriving DecidableEq

/-- Conversion From Position for GenericFormattedValue
(src/src/video.rs lines 23-30). -/
def genValueOfPosition : Position → GenValue
  | .time t => .clockTime (some t)
  | .frame f => .defaultFmt (some f)

/-- Seek flags that the modelled code combines. -/
structure SeekFlags where
  flush : Bool
  accurate : Bool
  keyUnit : Bool
  snapNearest : Bool
deriving DecidableEq

/-- SeekType values used by the modelled seeks. -/
inductive SeekType where
  | set : SeekType
  | end_ : SeekType
deriving DecidableEq

/-- One gst::Element::seek invocation: the full argument vector the code
hands to the pipeline. -/
structure SeekCall where
  rate : F64
  flags : SeekFlags
  startType : SeekType
  start : GenValue
  stopType : SeekType
  stop : GenValue
deriving DecidableEq

/-- Command issued to the pipeline by a modelled operation. -/
inductive PipelineCmd where
  | setState : GstState → PipelineCmd
  | seekCmd : SeekCall → PipelineCmd
deriving DecidableEq

/-- Frame (src/src/video.rs lines 44-55) wraps a gst::Sample; readable
is the mapped byte content of its buffer, none when there is no buffer
or mapping fails. -/
structure Frame where
  readable : Option (List Nat)
deriving DecidableEq

/-- Frame::empty builds a sample with no buffer (lines 48-50). -/
def Frame.empty : Frame := ⟨none⟩

/-- VideoOptions (src/src/video.rs lines 57-66). -/
structure VideoOptions where
  frame_buffer_capacity : Option Nat
  looping : Option Bool
  speed : Option F64
deriving DecidableEq

/-- VideoOptions::default (lines 68-76). -/
def VideoOptions.default : VideoOptions :=
  { frame_buffer_capacity := some 3, looping := some false, speed := some (.val 1) }

/-- Shared player state Internal (src/src/video.rs lines 78-109),
restricted to the fields the modelled operations read or write; the
pipeline handle, bus, worker join handle, liveness flag and wall-clock
last_frame_time are external resources and stay outside the state. -/
structure Internal where
  width : Int
  height : Int
  framerate : F64
  duration : Nat
  speed : F64
  frame : Frame
  upload_frame : Bool
  frame_buffer : List Frame
  frame_buffer_capacity : Nat
  looping : Bool
  is_eos : Bool
  restart_stream : Bool
  subtitle_text : Option String
  upload_text : Bool
  display_width_override : Option Nat
  display_height_override : Option Nat
deriving DecidableEq

/-- Seek flags built inside Internal::seek (lines 118-123 and 131-136):
FLUSH plus either ACCURATE or KEY_UNIT with SNAP_NEAREST. -/
def seekFlagsOf (accurate : Bool) : SeekFlags :=
  { flush := true, accurate := accurate, keyUnit := !accurate, snapNearest := !accurate }

/-- FLUSH with ACCURATE, the flag set of every rate-change seek
(lines 162 and 171). -/
def flushAccurate : SeekFlags :=
  { flush := true, accurate := true, keyUnit := false, snapNearest := false }

/-- Internal::seek (src/src/video.rs lines 112-153). The pipeline
response to source.seek is the pipelineSeek argument (none = success,
some e = the propagated error); the issued SeekCall is returned so that
theorems can inspect what was sent. On success the subtitle slot is
cleared and marked dirty, the frame buffer is cleared, and upload_frame
is reset; on failure the question-mark operator returns before any of
those writes. -/
def Internal.seek (st : Internal) (position : Position) (accurate : Bool)
    (pipelineSeek : Option Error) : Except Error Unit × Internal × SeekCall :=
  let call : SeekCall :=
    { rate := st.speed
      flags := seekFlagsOf accurate
      startType := .set
      start := genValueOfPosition position
      stopType := .set
      stop := match position with
        | .time _ => .clockTime none
        | .frame _ => .defaultFmt none }
  match pipelineSeek with
  | some e => (.error e, st, call)
  | none =>
      (.ok (),
       { st with
          subtitle_text := none
          upload_text := true
          frame_buffer := []
          upload_frame := false },
       call)

/-- Internal::set_speed (src/src/video.rs lines 155-180).
queryPosition is the pipeline response to query_position (none makes
the function fail with Error::Caps before any seek); pipelineSeek is
the response to the rate-change seek. Forward rates (speed > 0.0) seek
from the current position to stream end, other rates from stream start
to the current position; the stored speed field is assigned only after
the seek succeeded. The list of issued seeks is returned. -/
def Internal.set_speed (st : Internal) (speed : F64)
    (queryPosition : Option Nat) (pipelineSeek : Option Error) :
    Except Error Unit × Internal × List SeekCall :=
  match queryPosition with
  | none => (.error .caps, st, [])
  | some position =>
      let call : SeekCall :=
        if F64.lt (.val 0) speed then
          { rate := speed, flags := flushAccurate, startType := .set
            start := .clockTime (some position), stopType := .end_
            stop := .clockTime (some 0) }
        else
          { rate := speed, flags := flushAccurate, startType := .set
            start := .clockTime (some 0), stopType := .set
            stop := .clockTime (some position) }
      match pipelineSeek with
      | some e => (.error e, st, [call])
      | none => (.ok (), { st with speed := speed }, [call])

/-- Internal::set_paused (src/src/video.rs lines 189-201): issues the
Paused or Playing state change to the pipeline, then marks
restart_stream when resuming while is_eos is set. The issued pipeline
commands are returned; no seek is among them. -/
def Internal.set_paused (st : Internal) (paused : Bool) :
    Internal × List PipelineCmd :=
  let cmds := [PipelineCmd.setState (if paused then .paused else .playing)]
  if st.is_eos && !paused then
    ({ st with restart_stream := true }, cmds)
  else
    (st, cmds)

/-- While-loop of lines 437-439 (and 753-755): pop from the front while
the length exceeds the capacity. -/
def trimToCapacity (buf : List Frame) (cap : Nat) : List Frame :=
  match buf with
  | [] => []
  | f :: t => if t.length + 1 > cap then trimToCapacity t cap else f :: t

/-- Frame-publication slice of one worker iteration
(src/src/video.rs lines 426-443): overwrite the frame slot with the
pulled sample, push a clone into the frame buffer when the capacity is
positive and trim to capacity from the front, and always set
upload_frame. -/
def workerPublish (st : Internal) (sample : Frame) : Internal :=
  let st1 := { st with frame := sample }
  let capacity := st1.frame_buffer_capacity
  let st2 :=
    if 0 < capacity then
      { st1 with frame_buffer := trimToCapacity (st1.frame_buffer ++ [sample]) capacity }
    else st1
  { st2 with upload_frame := true }

/-- Video::take_frame_ready (src/src/video.rs lines 739-741): atomic
swap of upload_frame with false, returning the previous value. -/
def Video.take_frame_ready (st : Internal) : Bool × Internal :=
  (st.upload_frame, { st with upload_frame := false })

/-- Video::set_frame_buffer_capacity (src/src/video.rs lines 744-757):
store the new capacity, then clear the buffer when it is zero or trim
from the front while the length exceeds it. -/
def Video.set_frame_buffer_capacity (st : Internal) (capacity : Nat) : Internal :=
  let st1 := { st with frame_buffer_capacity := capacity }
  if capacity = 0 then { st1 with frame_buffer := [] }
  else { st1 with frame_buffer := trimToCapacity st1.frame_buffer capacity }

/-- Video::buffered_len (src/src/video.rs lines 782-784). -/
def Video.buffered_len (st : Internal) : Nat :=
  st.frame_buffer.length

/-- Rust as-cast from i32 to u32 (wrapping reinterpretation), used for
width and height in pop_buffered_frame. -/
def toU32 (i : Int) : Nat := (i % 2 ^ 32).toNat

/-- Video::pop_buffered_frame (src/src/video.rs lines 766-779): pop the
front of the frame buffer unconditionally; return its bytes with width
and height only when the popped frame maps readably to non-empty data,
otherwise return none. -/
def Video.pop_buffered_frame (st : Internal) :
    Option (List Nat × Nat × Nat) × Internal :=
  match st.frame_buffer with
  | [] => (none, st)
  | f :: rest =>
      let st1 := { st with frame_buffer := rest }
      match f.readable with
      | some data =>
          if data.isEmpty then (none, st1)
          else (some (data, toU32 st.width, toU32 st.height), st1)
      | none => (none, st1)

/-- Semantics of f32::round, the rounding display_size applies to the
derived dimension: round to the nearest integer, halves away from zero.
On the values reached here the f32 round of a finite float is this
function of the float's exact rational value (the integer result of
rounding a float below 2 ^ 23 is exactly representable, and every
representable float at or above 2 ^ 23 is already an integer). -/
def roundHalfAway (q : ℚ) : Int :=
  if q < 0 then -(((-q) + 1 / 2).floor) else (q + 1 / 2).floor

/-- Rust saturating float-to-u32 as-cast applied to an already rounded
(integral) finite value: negative values clamp to 0 and values above
u32::MAX clamp to u32::MAX (the NaN-to-0 case is unreachable in
display_size, whose guarded divisions have finite nonzero divisors). -/
def castU32 (z : Int) : Nat :=
  if z < 0 then 0 else min z.toNat (2 ^ 32 - 1)

/-- Video::display_size (src/src/video.rs lines 600-626). The two f32
arithmetic expressions of the source — the aspect-ratio quotient
`natural_w as f32 / natural_h as f32` and the derived dimension
`w as f32 / ar` resp. `h as f32 * ar` — are single-precision
computations outside this embedding, so, exactly like the pipeline
responses elsewhere in this file, they enter as parameters: fdiv x y
(resp. fmul x y) is the exact rational value of the f32 result of the
source expression on operands of exact value x and y (conversion of the
integer operand to f32 included; all f32 values reachable here are
finite, since the operands are bounded by u32::MAX and the divisor
ar is at least the smallest positive quotient of two u32 values, so
rationals represent them exactly). The float comparison `ar == 0.0` is
equality of values (signed zeros coincide; NaN cannot reach it), and
the `.round()` and saturating `as u32` of the source are roundHalfAway
and castU32. -/
def Video.display_size (fdiv fmul : ℚ → ℚ → ℚ) (st : Internal) : Nat × Nat :=
  let natural_w : Nat := (max st.width 0).toNat
  let natural_h : Nat := (max st.height 0).toNat
  let ar : ℚ := if natural_h = 0 then 1 else fdiv (natural_w : ℚ) (natural_h : ℚ)
  match st.display_width_override, st.display_height_override with
  | some w, some h => (w, h)
  | some w, none =>
      let h := if ar = 0 then natural_h
               else castU32 (roundHalfAway (fdiv (w : ℚ) ar))
      (w, h)
  | none, some h => (castU32 (roundHalfAway (fmul (h : ℚ) ar)), h)
  | none, none => (natural_w, natural_h)

/-- Infinitely precise float backend (exact rational division), used to
instantiate closed statements about display_size; at the concrete
inputs where it is instantiated the stated output coincides with the
output under any backend. -/
def exactDiv (x y : ℚ) : ℚ := x / y

/-- Infinitely precise float backend (exact rational multiplication),
companion of exactDiv. -/
def exactMul (x y : ℚ) : ℚ := x * y

/-- Modelled from the spec: the nearest-pixel derivation in the words
of the claim for C8 — the override divided by the exact natural aspect
ratio width / height, rounded to the nearest pixel, with no precision
loss and no clamping. Compared against Video.display_size, which is
what the source computes. -/
def specNearestPixelHeight (w natW natH : Nat) : Int :=
  roundHalfAway ((w : ℚ) / ((natW : ℚ) / (natH : ℚ)))

/-- Framerate validation condition of src/src/video.rs lines 334-338:
NaN, infinite, negative, or of absolute value below f64::EPSILON. -/
def framerateInvalid (framerate : F64) : Bool :=
  framerate.isNan || framerate.isInfinite || F64.lt framerate (.val 0) ||
    F64.lt framerate.abs f64Epsilon

/-- Pipeline responses consumed by the modelled tail of construction. -/
structure ConstructEnv where
  queryDuration : Option Nat
  queryPosition : Option Nat
  initialSeek : Option Error
deriving DecidableEq

/-- Video::from_gst_pipeline_with_options
(src/src/video.rs lines 285-556), modelled from the point where the
negotiated caps (width, height, framerate) have been extracted: the
framerate gate of lines 334-341 sets the pipeline to Null and fails
with Error::Framerate; the duration query defaults to 0 (lines
343-348); the shared state is created with an empty frame buffer, the
optioned capacity (unwrap_or_default, hence 0 when absent), cleared
flags and no overrides (lines 350-375 and 528-555); and the initial
speed (options.speed.unwrap_or_default(), hence 0.0 when absent) is
applied through a rate-change seek when it differs from 1.0 by more
than f64::EPSILON (lines 499-526), failing with Error::Caps when the
position cannot be queried, any failure running the cleanup that sets
the pipeline to Null. The second component collects every seek issued
to the pipeline, on failing paths included; the GstState paired with an
error is the pipeline state the failing path leaves behind. -/
def Video.from_gst_pipeline_with_options (options : VideoOptions)
    (width height : Int) (framerate : F64) (env : ConstructEnv) :
    Except (Error × GstState) Internal × List SeekCall :=
  if framerateInvalid framerate then
    (.error (.framerate framerate, .null), [])
  else
    let duration := env.queryDuration.getD 0
    let initial_speed := options.speed.getD (.val 0)
    let st : Internal :=
      { width := width
        height := height
        framerate := framerate
        duration := duration
        speed := initial_speed
        frame := Frame.empty
        upload_frame := false
        frame_buffer := []
        frame_buffer_capacity := options.frame_buffer_capacity.getD 0
        looping := options.looping.getD false
        is_eos := false
        restart_stream := false
        subtitle_text := none
        upload_text := false
        display_width_override := none
        display_height_override := none }
    if F64.lt f64Epsilon (F64.abs (F64.sub initial_speed (.val 1))) then
      match env.queryPosition with
      | none => (.error (.caps, .null), [])
      | some position =>
          let call : SeekCall :=
            if F64.lt (.val 0) initial_speed then
              { rate := initial_speed, flags := flushAccurate, startType := .set
                start := .clockTime (some position), stopType := .end_
                stop := .clockTime (some 0) }
            else
              { rate := initial_speed, flags := flushAccurate, startType := .set
                start := .clockTime (some 0), stopType := .set
                stop := .clockTime (some position) }
          match env.initialSeek with
          | some e => (.error (e, .null), [call])
          | none => (.ok st, [call])
    else
      (.ok st, [])

/-- State right after a successful construction with frame buffer
capacity n: the fields produced by lines 528-555 with an empty frame
buffer. -/
def initState (n : Nat) : Internal :=
  { width := 1920
    height := 1080
    framerate := .val 30
    duration := 0
    speed := .val 1
    frame := Frame.empty
    upload_frame := false
    frame_buffer := []
    frame_buffer_capacity := n
    looping := false
    is_eos := false
    restart_stream := false
    subtitle_text := none
    upload_text := false
    display_width_override := none
    display_height_override := none }

/-- Operations that touch the frame ring buffer after construction: a
worker frame publication or a capacity change from the handle. -/
inductive BufferOp where
  | publish : Frame → BufferOp
  | setCapacity : Nat → BufferOp

/-- Apply one buffer operation. -/
def applyBufferOp (st : Internal) : BufferOp → Internal
  | .publish sample => workerPublish st sample
  | .setCapacity n => Video.set_frame_buffer_capacity st n

/-- Run a sequence of buffer operations from a starting state. -/
def runBufferOps (st : Internal) (ops : List BufferOp) : Internal :=
  ops.foldl applyBufferOp st

/-- Concrete state exercising the theorem for C2: one buffered frame
and frame_ready set. -/
def seekWitnessState : Internal :=
  { initState 3 with frame_buffer := [⟨some [1, 2, 3]⟩], upload_frame := true }

/-- Concrete state exercising the theorem for C8: natural size
1920 x 1080 with only the display width overridden to 1280. -/
def displayWitnessState : Internal :=
  { initState 3 with display_width_override := some 1280 }

/-- Concrete state refuting the nearest-pixel reading of C8: natural
size 1 x 100000 with a display width override of 100000. The exact
derived height is 10 ^ 10, far above u32::MAX, so the saturating cast
clamps the result under every float backend. -/
def displayCounterState : Internal :=
  { initState 3 with
      width := 1, height := 100000, display_width_override := some 100000 }

theorem ratFloorBridge (q : ℚ) : q.floor = ⌊q⌋ := by
  rw [Rat.floor_def', Rat.floor_def]

theorem trimToCapacity_length_le (buf : List Frame) (cap : Nat) :
    (trimToCapacity buf cap).length ≤ cap := by
  induction buf with
  | nil => simp [trimToCapacity]
  | cons f t ih =>
    rw [trimToCapacity]
    by_cases h : t.length + 1 > cap
    · simpa [h] using ih
    · simp only [h, if_false, List.length_cons]
      omega

theorem trimToCapacity_eq_drop (buf : List Frame) (cap : Nat) :
    trimToCapacity buf cap = buf.drop (buf.length - cap) := by
  induction buf with
  | nil => simp [trimToCapacity]
  | cons f t ih =>
    rw [trimToCapacity]
    by_cases h : t.length + 1 > cap
    · have hlen : (f :: t).length - cap = (t.length - cap) + 1 := by
        simp only [List.length_cons]; omega
      simp only [h, if_true, hlen, List.drop_succ_cons]
      exact ih
    · have hlen : t.length + 1 - cap = 0 := by omega
      simp [h, hlen]

theorem applyBufferOp_inv (st : Internal) (op : BufferOp)
    (h : st.frame_buffer.length ≤ st.frame_buffer_capacity) :
    (applyBufferOp st op).frame_buffer.length ≤
      (applyBufferOp st op).frame_buffer_capacity := by
  cases op with
  | publish sample =>
    simp only [applyBufferOp, workerPublish]
    by_cases hc : 0 < st.frame_buffer_capacity
    · simpa [hc] using trimToCapacity_length_le _ _
    · simpa [hc] using h
  | setCapacity n =>
    simp only [applyBufferOp, Video.set_frame_buffer_capacity]
    by_cases hn : n = 0
    · simp [hn]
    · simpa [hn] using trimToCapacity_length_le _ _

theorem runBufferOps_inv (ops : List BufferOp) (st : Internal)
    (h : st.frame_buffer.length ≤ st.frame_buffer_capacity) :
    (runBufferOps st ops).frame_buffer.length ≤
      (runBufferOps st ops).frame_buffer_capacity := by
  induction ops generalizing st with
  | nil => simpa [runBufferOps]
  | cons op ops ih =>
    simp only [runBufferOps, List.foldl_cons]
    exact ih _ (applyBufferOp_inv st op h)

/-- C1: for every capacity n and after any sequence of worker pushes
and capacity changes from the post-construction state, the frame ring
buffer length never exceeds the current capacity (so capacity 0 keeps
the buffer empty); moreover the trimming loop removes elements from the
front, dropping exactly the oldest surplus entries. -/
theorem frame_buffer_bounded_by_capacity :
    (∀ (n : Nat) (ops : List BufferOp),
      (runBufferOps (initState n) ops).frame_buffer.length ≤
        (runBufferOps (initState n) ops).frame_buffer_capacity) ∧
    (∀ (buf : List Frame) (cap : Nat),
      trimToCapacity buf cap = buf.drop (buf.length - cap)) := by
  constructor
  · intro n ops
    apply runBufferOps_inv
    simp [initState]
  · exact trimToCapacity_eq_drop

/-- C2: from any state with a non-empty frame ring buffer and the
frame_ready flag set, a successful seek returns ok, empties the frame
buffer, makes the next take_frame_ready return false, clears the
subtitle text slot and sets the subtitle dirty flag. -/
theorem seek_success_clears_buffer_and_flags
    (st : Internal) (position : Position) (accurate : Bool)
    (hbuf : st.frame_buffer ≠ []) (hready : st.upload_frame = true) :
    (Internal.seek st position accurate none).1 = .ok () ∧
    ((Internal.seek st position accurate none).2.1).frame_buffer = [] ∧
    (Video.take_frame_ready (Internal.seek st position accurate none).2.1).1 = false ∧
    ((Internal.seek st position accurate none).2.1).subtitle_text = none ∧
    ((Internal.seek st position accurate none).2.1).upload_text = true := by
  simp [Internal.seek, Video.take_frame_ready]

theorem seek_success_clears_buffer_and_flags_witness :
    ((Internal.seek seekWitnessState (.time 0) true none).2.1).frame_buffer = [] ∧
    (Video.take_frame_ready
      (Internal.seek seekWitnessState (.time 0) true none).2.1).1 = false :=
  ⟨(seek_success_clears_buffer_and_flags seekWitnessState (.time 0) true
      (by simp [seekWitnessState]) rfl).2.1,
   (seek_success_clears_buffer_and_flags seekWitnessState (.time 0) true
      (by simp [seekWitnessState]) rfl).2.2.1⟩

/-- C3 counterexample: calling set_speed with rate 0 from the
post-construction state, with a queryable position, issues exactly one
seek to the pipeline and its rate argument is 0 — the zero rate takes
the non-forward branch and is passed to the pipeline unchanged, so a
rate of 0 can be applied. -/
theorem set_speed_zero_rate_reaches_pipeline :
    ((Internal.set_speed (initState 3) (.val 0) (some 0) none).2.2).map
      SeekCall.rate = [.val 0] := by
  simp [Internal.set_speed, F64.lt]

/-- C3 amended: every seek that set_speed or the initial-speed step of
construction issues to the pipeline carries exactly the requested rate
(the strategy branches only on the sign of the rate and never alters
it) — in particular the rate passed is 0 exactly when the requested
rate is 0. -/
theorem seek_rate_equals_requested_speed :
    (∀ (st : Internal) (sp : F64) (qp : Option Nat) (ps : Option Error),
      ((Internal.set_speed st sp qp ps).2.2).all
        (fun c => decide (c.rate = sp)) = true) ∧
    (∀ (options : VideoOptions) (w h : Int) (fr : F64) (env : ConstructEnv),
      ((Video.from_gst_pipeline_with_options options w h fr env).2).all
        (fun c => decide (c.rate = options.speed.getD (.val 0))) = true) := by
  constructor
  · intro st sp qp ps
    cases qp with
    | none => simp [Internal.set_speed]
    | some p =>
      cases ps <;> simp only [Internal.set_speed] <;> split <;> simp
  · intro options w h fr env
    by_cases hfr : framerateInvalid fr = true
    · simp [Video.from_gst_pipeline_with_options, hfr]
    · obtain ⟨qd, qp, is⟩ := env
      cases qp <;> cases is <;>
        simp only [Video.from_gst_pipeline_with_options, hfr, Bool.false_eq_true,
          if_false] <;>
        split <;> simp_all <;> split <;> simp

/-- C4: set_speed in a state where the pipeline cannot report its
position fails with the CapabilityMissing error, leaving the whole
state (the stored speed included) unchanged and issuing no seek; in
general the stored speed becomes the requested rate exactly when the
position query and the rate-change seek both succeed, and keeps its old
value otherwise. -/
theorem set_speed_caps_failure_and_update :
    ∀ (st : Internal) (sp : F64) (qp : Option Nat) (ps : Option Error),
      Internal.set_speed st sp none ps = (.error .caps, st, []) ∧
      ((Internal.set_speed st sp qp ps).2.1).speed =
        (if qp.isSome && ps.isNone then sp else st.speed) := by
  intro st sp qp ps
  refine ⟨rfl, ?_⟩
  cases qp with
  | none => simp [Internal.set_speed]
  | some p => cases ps <;> simp [Internal.set_speed]

/-- C5: when the negotiated framerate is NaN, infinite, negative or
zero, construction fails with the InvalidFramerate error carrying that
framerate, and the pipeline has been set to the terminal Null state. -/
theorem construction_rejects_invalid_framerate
    (options : VideoOptions) (w h : Int) (fr : F64) (env : ConstructEnv)
    (hbad : fr.isNan = true ∨ fr.isInfinite = true ∨
      F64.lt fr (.val 0) = true ∨ fr = .val 0) :
    (Video.from_gst_pipeline_with_options options w h fr env).1 =
      .error (.framerate fr, .null) := by
  have hinv : framerateInvalid fr = true := by
    rcases hbad with h1 | h1 | h1 | h1
    · simp [framerateInvalid, h1]
    · simp [framerateInvalid, h1]
    · simp [framerateInvalid, h1]
    · subst h1
      simp only [framerateInvalid, F64.isNan, F64.isInfinite, F64.abs, F64.lt,
        f64Epsilon]
      norm_num
  simp [Video.from_gst_pipeline_with_options, hinv]

theorem construction_rejects_invalid_framerate_witness :
    (Video.from_gst_pipeline_with_options VideoOptions.default 1920 1080 (.val 0)
      ⟨some 0, some 0, none⟩).1 = .error (.framerate (.val 0), .null) :=
  construction_rejects_invalid_framerate VideoOptions.default 1920 1080 (.val 0)
    ⟨some 0, some 0, none⟩ (Or.inr (Or.inr (Or.inr rfl)))

/-- C6: take_frame_ready is read-and-clear: after a worker publication
(which always sets the flag) it returns true, and an immediately
repeated call with no intervening publication always returns false —
so it returns true at most once per publication. -/
theorem take_frame_ready_read_and_clear :
    ∀ (st s : Internal) (sample : Frame),
      (Video.take_frame_ready (workerPublish st sample)).1 = true ∧
      (Video.take_frame_ready (Video.take_frame_ready s).2).1 = false := by
  intro st s sample
  exact ⟨rfl, rfl⟩

/-- C7: set_paused issues exactly one pipeline command — the state
change to Paused when the argument is true and to Playing when it is
false, never a seek — and the restart flag afterwards is set exactly
when it was already set or the call resumes (argument false) while
is_eos holds. -/
theorem set_paused_toggles_state_and_marks_restart :
    ∀ (st : Internal) (b : Bool),
      (Internal.set_paused st b).2 =
        [PipelineCmd.setState (if b then .paused else .playing)] ∧
      ((Internal.set_paused st b).1).restart_stream =
        (st.is_eos && !b || st.restart_stream) := by
  intro st b
  cases b <;> cases heos : st.is_eos <;>
    simp [Internal.set_paused, heos]

/-- C9: when the pipeline rejects the flush-seek, Internal::seek
returns that very error to the caller and the state is left entirely
unchanged — frame ring buffer, frame_ready flag, subtitle text slot and
subtitle dirty flag included — because the clearing writes sit after
the pipeline call. -/
theorem seek_failure_leaves_state_unchanged :
    ∀ (st : Internal) (position : Position) (accurate : Bool) (e : Error),
      (Internal.seek st position accurate (some e)).1 = .error e ∧
      (Internal.seek st position accurate (some e)).2.1 = st := by
  intro st position accurate e
  exact ⟨rfl, rfl⟩

/-- C10: pop_buffered_frame always removes the front (oldest) element
of the frame ring buffer — the post-state buffer is the tail of the
pre-state buffer and the buffered length drops by one — regardless of
whether the popped frame maps to non-empty bytes (a return of none with
a non-empty buffer still consumes the frame); only an empty buffer
keeps its length, at zero. -/
theorem pop_buffered_frame_removes_oldest :
    ∀ (st : Internal),
      ((Video.pop_buffered_frame st).2).frame_buffer = st.frame_buffer.tail ∧
      Video.buffered_len (Video.pop_buffered_frame st).2 =
        Video.buffered_len st - 1 := by
  intro st
  cases hb : st.frame_buffer with
  | nil => simp [Video.pop_buffered_frame, Video.buffered_len, hb]
  | cons f rest =>
    cases hr : f.readable with
    | none => simp [Video.pop_buffered_frame, Video.buffered_len, hb, hr]
    | some data =>
      by_cases hd : data.isEmpty <;>
        simp [Video.pop_buffered_frame, Video.buffered_len, hb, hr, hd]

theorem castU32_le (z : Int) : castU32 z <= 2 ^ 32 - 1 := by
  rw [castU32]
  split
  · exact Nat.zero_le _
  · exact min_le_right _ _

theorem display_size_eq_of_override_w (fdiv fmul : ℚ → ℚ → ℚ) (st : Internal)
    (hn : st.height.toNat ≠ 0) (hW : max st.width 0 = st.width)
    (hH : max st.height 0 = st.height) (w : Nat)
    (h1 : st.display_width_override = some w)
    (h2 : st.display_height_override = none) :
    Video.display_size fdiv fmul st =
      (w,
        if fdiv (st.width.toNat : ℚ) (st.height.toNat : ℚ) = 0 then
          st.height.toNat
        else
          castU32 (roundHalfAway (fdiv (w : ℚ)
            (fdiv (st.width.toNat : ℚ) (st.height.toNat : ℚ))))) := by
  simp [Video.display_size, h1, h2, hW, hH, hn]

theorem display_size_eq_of_override_h (fdiv fmul : ℚ → ℚ → ℚ) (st : Internal)
    (hn : st.height.toNat ≠ 0) (hW : max st.width 0 = st.width)
    (hH : max st.height 0 = st.height) (h : Nat)
    (h1 : st.display_width_override = none)
    (h2 : st.display_height_override = some h) :
    Video.display_size fdiv fmul st =
      (castU32 (roundHalfAway (fmul (h : ℚ)
        (fdiv (st.width.toNat : ℚ) (st.height.toNat : ℚ)))), h) := by
  simp [Video.display_size, h1, h2, hW, hH, hn]

theorem display_size_counter_capped_all_backends
    (fdiv fmul : ℚ → ℚ → ℚ) :
    ((Video.display_size fdiv fmul displayCounterState).2 : Int) <
      10000000000 := by
  have hwmax : max displayCounterState.width 0 = displayCounterState.width := by
    have e : displayCounterState.width = 1 := rfl
    rw [e]
    exact max_eq_left (by norm_num)
  have hhmax : max displayCounterState.height 0 = displayCounterState.height := by
    have e : displayCounterState.height = 100000 := rfl
    rw [e]
    exact max_eq_left (by norm_num)
  have hm := display_size_eq_of_override_w fdiv fmul displayCounterState
    (by decide) hwmax hhmax 100000 rfl rfl
  rw [hm]
  split
  · have e2 : displayCounterState.height.toNat = 100000 := rfl
    rw [e2]
    norm_num
  · have hb := castU32_le (roundHalfAway (fdiv ((100000 : Nat) : ℚ)
      (fdiv ((displayCounterState.width.toNat : ℚ))
        ((displayCounterState.height.toNat : ℚ)))))
    have hp : (2 : Nat) ^ 32 - 1 = 4294967295 := by norm_num
    rw [hp] at hb
    omega

/-- C8 counterexample: at the reachable state with natural size
1 x 100000 and display width override 100000, the program saturates the
derived height at u32::MAX (4294967295) while the nearest-pixel
derivation from the exact natural aspect ratio gives 10 ^ 10, so the
derived dimension is not the aspect-ratio quotient rounded to the
nearest pixel. The closed statement instantiates the float backend with
exact rational arithmetic; this is inessential, since
display_size_counter_capped_all_backends shows the saturating cast
keeps the output below 10 ^ 10 under every backend (and the real f32
quotient, about 10 ^ 10, also lands far above u32::MAX). -/
theorem display_size_saturates_not_nearest_pixel :
    (Video.display_size exactDiv exactMul displayCounterState).2 =
      4294967295 ∧
    specNearestPixelHeight 100000 1 100000 = 10000000000 ∧
    ((Video.display_size exactDiv exactMul displayCounterState).2 : Int) ≠
      specNearestPixelHeight 100000 1 100000 := by
  have e1 : displayCounterState.width.toNat = 1 := rfl
  have e2 : displayCounterState.height.toNat = 100000 := rfl
  have hround : roundHalfAway ((10000000000 : ℚ)) = 10000000000 := by
    rw [roundHalfAway, if_neg (by norm_num), ratFloorBridge]
    rw [Int.floor_eq_iff]
    constructor <;> norm_num
  have hcast : castU32 ((10000000000 : Int)) = 4294967295 := by decide
  have hwmax : max displayCounterState.width 0 = displayCounterState.width := by
    have e : displayCounterState.width = 1 := rfl
    rw [e]
    exact max_eq_left (by norm_num)
  have hhmax : max displayCounterState.height 0 = displayCounterState.height := by
    have e : displayCounterState.height = 100000 := rfl
    rw [e]
    exact max_eq_left (by norm_num)
  have hm := display_size_eq_of_override_w exactDiv exactMul displayCounterState
    (by decide) hwmax hhmax 100000 rfl rfl
  rw [e1, e2] at hm
  have har : exactDiv ((1 : Nat) : ℚ) ((100000 : Nat) : ℚ) ≠ 0 := by
    rw [exactDiv]
    norm_num
  rw [if_neg har] at hm
  have hq : exactDiv ((100000 : Nat) : ℚ)
      (exactDiv ((1 : Nat) : ℚ) ((100000 : Nat) : ℚ)) = 10000000000 := by
    rw [exactDiv, exactDiv]
    norm_num
  rw [hq, hround, hcast] at hm
  have hmain : (Video.display_size exactDiv exactMul displayCounterState).2 =
      4294967295 := by rw [hm]
  have hspec : specNearestPixelHeight 100000 1 100000 = 10000000000 := by
    rw [specNearestPixelHeight]
    have hv : ((100000 : Nat) : ℚ) / (((1 : Nat) : ℚ) / ((100000 : Nat) : ℚ)) =
        10000000000 := by norm_num
    rw [hv, hround]
  refine ⟨hmain, hspec, ?_⟩
  rw [hmain, hspec]
  decide

/-- C8 amended: display_size is a pure derivation from width, height
and the overrides: with no override it returns the natural size, with
both overrides it returns them, and with exactly one override the other
dimension is derived from the natural aspect ratio width / height as
computed in single-precision arithmetic (any float backend), rounded to
the nearest pixel and saturated by the u32 cast — in particular the
derived dimension never exceeds u32::MAX. -/
theorem display_size_cases_with_saturation
    (fdiv fmul : ℚ → ℚ → ℚ) (st : Internal)
    (hw : 0 < st.width) (hh : 0 < st.height) :
    (st.display_width_override = none → st.display_height_override = none →
      Video.display_size fdiv fmul st = (st.width.toNat, st.height.toNat)) ∧
    (∀ w h, st.display_width_override = some w →
      st.display_height_override = some h →
      Video.display_size fdiv fmul st = (w, h)) ∧
    (∀ w, st.display_width_override = some w →
      st.display_height_override = none →
      Video.display_size fdiv fmul st =
        (w,
          if fdiv (st.width.toNat : ℚ) (st.height.toNat : ℚ) = 0 then
            st.height.toNat
          else
            castU32 (roundHalfAway (fdiv (w : ℚ)
              (fdiv (st.width.toNat : ℚ) (st.height.toNat : ℚ))))) ∧
        (Video.display_size fdiv fmul st).2 ≤
          max (2 ^ 32 - 1) st.height.toNat) ∧
    (∀ h, st.display_width_override = none →
      st.display_height_override = some h →
      Video.display_size fdiv fmul st =
        (castU32 (roundHalfAway (fmul (h : ℚ)
          (fdiv (st.width.toNat : ℚ) (st.height.toNat : ℚ)))), h) ∧
        (Video.display_size fdiv fmul st).1 ≤ 2 ^ 32 - 1) := by
  have hW : max st.width 0 = st.width := max_eq_left hw.le
  have hH : max st.height 0 = st.height := max_eq_left hh.le
  have hHn : st.height.toNat ≠ 0 := by omega
  refine ⟨?_, ?_, ?_, ?_⟩
  · intro h1 h2
    simp [Video.display_size, h1, h2, hW, hH]
  · intro w h h1 h2
    simp [Video.display_size, h1, h2]
  · intro w h1 h2
    have hm := display_size_eq_of_override_w fdiv fmul st hHn hW hH w h1 h2
    refine ⟨hm, ?_⟩
    rw [hm]
    split
    · exact le_max_right _ _
    · exact le_trans (castU32_le _) (le_max_left _ _)
  · intro h h1 h2
    have hm := display_size_eq_of_override_h fdiv fmul st hHn hW hH h h1 h2
    refine ⟨hm, ?_⟩
    rw [hm]
    exact castU32_le _

theorem display_size_cases_with_saturation_witness :
    Video.display_size exactDiv exactMul displayWitnessState = (1280, 720) := by
  have h3 := ((display_size_cases_with_saturation exactDiv exactMul
    displayWitnessState (by decide) (by decide)).2.2.1 1280 rfl rfl).1
  have e1 : displayWitnessState.width.toNat = 1920 := rfl
  have e2 : displayWitnessState.height.toNat = 1080 := rfl
  rw [e1, e2] at h3
  have har : exactDiv ((1920 : Nat) : ℚ) ((1080 : Nat) : ℚ) ≠ 0 := by
    rw [exactDiv]
    norm_num
  rw [if_neg har] at h3
  have hq : exactDiv ((1280 : Nat) : ℚ)
      (exactDiv ((1920 : Nat) : ℚ) ((1080 : Nat) : ℚ)) = 720 := by
    rw [exactDiv, exactDiv]
    norm_num
  rw [hq] at h3
  have hr : roundHalfAway ((720 : ℚ)) = 720 := by
    rw [roundHalfAway, if_neg (by norm_num), ratFloorBridge]
    rw [Int.floor_eq_iff]
    constructor <;> norm_num
  have hc : castU32 ((720 : Int)) = 720 := by decide
  rw [hr, hc] at h3
  exact h3
